import Mathlib

/-!
Shallow embedding of the `openldbsvws` service-details parser.

The repository carries two successive iterations of the same parsing
logic:

* `openldbsvws-lib/src/lib.rs` — self-contained functions
  `parse_service_location` / `parse_service_details`, a `Traversable`
  impl with `field_text` / `field` / `field_time` / `field_date` /
  `field_bool`, and a two-variant `ForecastType` (`Estimated`, `Actual`);
* `openldbsvws-lib/src/services.rs` with `parsable.rs` and
  `associations.rs` — the newer macro-based iteration
  (`text!`, `time!`, `bool!`, `parse!`, `child!`), a five-variant
  `ForecastType` (`Estimated`, `Actual`, `NoLog`, `NoReport`, `Delayed`)
  and a combined `ServiceTime` for both directions.

Both are embedded below, in the namespaces `Lib` and `Services`.

Modelling conventions:

* XML nodes are modelled by `XNode`: a tag name, the node's direct text
  content (`none` when the node has no text child, matching
  `roxmltree::Node::text()` returning `None`), and the list of element
  children in document order.
* `chrono` timestamps and dates are modelled by their raw text together
  with an executable validity check for the strict RFC 3339 profile
  (`DateTime::parse_from_rfc3339`) resp. the `%Y-%m-%d` pattern
  (`NaiveDate::parse_from_str`); a successfully parsed value is
  represented by the accepted text itself.
* Rust panics — the `todo!()` reached for an `adhocAlerts` child and the
  `.unwrap()` of `core::str::from_utf8` on a 2-byte activity chunk —
  are modelled by the distinguished outcome `PResult.aborted`, which is
  neither a result nor a structured parsing error.
* Activity texts are processed at the UTF-8 byte level, exactly as
  `activities.as_bytes().chunks(2)` does in the source.
-/

/-- Outcome of a Rust computation that can return a value, return a
structured error, or panic (modelled as `aborted`). -/
inductive PResult (ε α : Type) where
  | ok (val : α)
  | err (e : ε)
  | aborted
deriving DecidableEq, Repr

/-- Map over the success value of a `PResult`. -/
def PResult.map {ε α β : Type} (f : α → β) : PResult ε α → PResult ε β
  | .ok a => .ok (f a)
  | .err e => .err e
  | .aborted => .aborted

/-- `Result::ok()` on `Except`: the success value, discarding any error. -/
def okOpt {ε α : Type} : Except ε α → Option α
  | .ok a => some a
  | .error _ => none

/-- An XML element: tag name, direct text content (if any), element
children in document order. -/
inductive XNode where
  | mk (tag : String) (text : Option String) (children : List XNode)

def XNode.tag : XNode → String
  | .mk t _ _ => t

def XNode.text : XNode → Option String
  | .mk _ t _ => t

def XNode.children : XNode → List XNode
  | .mk _ _ c => c

/-- Whether the node has a direct child with the given tag
(`children().find(|x| x.has_tag_name(name))` succeeding). -/
def hasChild (n : XNode) (tagName : String) : Bool :=
  (n.children.find? (fun c => c.tag == tagName)).isSome

/-- Activity codes, as declared in both iterations (lib.rs names; the
services.rs iteration names `NotionalActivity` as `Notional` and
`ActivityRequestedForTOPS` as `RequestedForTOPS`, with identical code
tables). -/
inductive Activity where
  | StopDetach
  | StopAttachDetach
  | StopAttach
  | StopOrShuntForPass
  | AttachOrDetachAssistingLocomotive
  | ShowsAsXOnArrival
  | StopsForBankingLocomotive
  | StopsToChangeCrew
  | StopsToSetDownPassengers
  | StopsForExamination
  | GBPRTTDataToAdd
  | NotionalActivity
  | NotionalActivityThirdColumn
  | PassengerCountPoint
  | TicketCollectionAndExaminationPoint
  | TicketExaminationPoint
  | TicketExaminationPointFirstClass
  | SelectiveTicketExaminationPoint
  | StopsToChangeLocomotive
  | StopNotAdvertised
  | StopsForOtherReasons
  | TrainLocomotiveOnRear
  | PropellingBetweenPointsShown
  | StopsWhenRequired
  | StopsForReversingMove
  | StopsForLocomotiveToRunRoundTrain
  | StopsForRailwayPersonnel
  | StopsToTakeUpAndSetDownPassengers
  | TrainBegins
  | TrainFinishes
  | ActivityRequestedForTOPS
  | StopsOrPassesForTabletOrStaffOrToken
  | StopsToTakeUpPassengers
  | StopsForWateringOfCoaches
  | PassesAnotherTrain
  | None
deriving DecidableEq, Repr

/-- The fixed activity lookup table common to both iterations: the match
on `activity.trim()`.  `some a` is the matched variant (the empty string
maps to the "no activity" marker); `none` models the fall-through arm
that raises `InvalidActivity`. -/
def activityOfCode : String → Option Activity
  | "-D" => some .StopDetach
  | "-T" => some .StopAttachDetach
  | "-U" => some .StopAttach
  | "A" => some .StopOrShuntForPass
  | "AE" => some .AttachOrDetachAssistingLocomotive
  | "AX" => some .ShowsAsXOnArrival
  | "BL" => some .StopsForBankingLocomotive
  | "C" => some .StopsToChangeCrew
  | "D" => some .StopsToSetDownPassengers
  | "E" => some .StopsForExamination
  | "G" => some .GBPRTTDataToAdd
  | "H" => some .NotionalActivity
  | "HH" => some .NotionalActivityThirdColumn
  | "K" => some .PassengerCountPoint
  | "KC" => some .TicketCollectionAndExaminationPoint
  | "KE" => some .TicketExaminationPoint
  | "KF" => some .TicketExaminationPointFirstClass
  | "KS" => some .SelectiveTicketExaminationPoint
  | "L" => some .StopsToChangeLocomotive
  | "N" => some .StopNotAdvertised
  | "OP" => some .StopsForOtherReasons
  | "OR" => some .TrainLocomotiveOnRear
  | "PR" => some .PropellingBetweenPointsShown
  | "R" => some .StopsWhenRequired
  | "RM" => some .StopsForReversingMove
  | "RR" => some .StopsForLocomotiveToRunRoundTrain
  | "S" => some .StopsForRailwayPersonnel
  | "T" => some .StopsToTakeUpAndSetDownPassengers
  | "TB" => some .TrainBegins
  | "TF" => some .TrainFinishes
  | "TS" => some .ActivityRequestedForTOPS
  | "TW" => some .StopsOrPassesForTabletOrStaffOrToken
  | "U" => some .StopsToTakeUpPassengers
  | "W" => some .StopsForWateringOfCoaches
  | "X" => some .PassesAnotherTrain
  | "" => some .None
  | _ => none

/-- UTF-8 encoding of one Unicode scalar value (by its code point), as
exposed by `str::as_bytes`. -/
def encodeChar (n : Nat) : List Nat :=
  if n < 0x80 then [n]
  else if n < 0x800 then [0xC0 + n / 64, 0x80 + n % 64]
  else if n < 0x10000 then [0xE0 + n / 4096, 0x80 + n / 64 % 64, 0x80 + n % 64]
  else [0xF0 + n / 262144, 0x80 + n / 4096 % 64, 0x80 + n / 64 % 64, 0x80 + n % 64]

/-- The UTF-8 byte sequence of a string (`str::as_bytes`). -/
def utf8Bytes (s : String) : List Nat :=
  (s.toList.map (fun c => encodeChar c.toNat)).flatten

/-- `slice::chunks(2)`: split a byte sequence into chunks of two bytes,
the last chunk possibly a single byte. -/
def chunks2 : List Nat → List (List Nat)
  | [] => []
  | [a] => [[a]]
  | a :: b :: rest => [a, b] :: chunks2 rest

/-- `core::str::from_utf8` on a chunk of at most two bytes, returning the
decoded scalar values; `none` models `Err(Utf8Error)`, on which the
source calls `.unwrap()` and panics.  A chunk of two bytes is valid when
both are ASCII or when they form one two-byte sequence (lead byte
`0xC2..=0xDF`, continuation byte `0x80..=0xBF`). -/
def utf8Chunk : List Nat → Option (List Nat)
  | [] => some []
  | [a] => if a < 0x80 then some [a] else none
  | [a, b] =>
    if a < 0x80 then
      if b < 0x80 then some [a, b] else none
    else if 0xC2 ≤ a ∧ a ≤ 0xDF ∧ 0x80 ≤ b ∧ b ≤ 0xBF then
      some [(a - 0xC0) * 64 + (b - 0x80)]
    else none
  | _ => none

/-- Whitespace scalar values below `0x800` — the only code points
reachable from a two-byte chunk; mirrors Rust `char::is_whitespace`
restricted to that range (tab, LF, VT, FF, CR, space, NEL, NBSP). -/
def isWs (n : Nat) : Bool :=
  n == 9 || n == 10 || n == 11 || n == 12 || n == 13 || n == 32 || n == 0x85 || n == 0xA0

/-- Rust `str::trim` on a decoded chunk (drop whitespace from both
ends). -/
def rustTrim (l : List Nat) : List Nat :=
  ((l.dropWhile isWs).reverse.dropWhile isWs).reverse

/-- Build a string back from decoded scalar values (all reachable values
here are at most `0x7FF`, hence valid `Char`s). -/
def strOfScalars (l : List Nat) : String :=
  String.mk (l.map Char.ofNat)

/-- Phase 1 of the decoding loop, the iterator pipeline
`activities.as_bytes().chunks(2).map(|x| from_utf8(x).unwrap())
.collect::<Vec<&str>>()`: the `collect` materialises the whole vector,
so **every** chunk is UTF-8-decoded (`.unwrap()` panicking on the first
invalid chunk) before any chunk is matched against the code table.  The
collected `&str`s are modelled by their decoded scalar-value sequences;
`none` models the panic. -/
def unwrapChunks : List (List Nat) → Option (List (List Nat))
  | [] => some []
  | c :: cs =>
    match utf8Chunk c with
    | none => none
    | some scalars =>
      match unwrapChunks cs with
      | none => none
      | some rest => some (scalars :: rest)

/-- Phase 2 of the decoding loop, the `for activity in ...` body over
the collected vector: `.trim()` each chunk string, look it up in the
fixed table, and fail with the first unknown (trimmed) code — the text
handed to `InvalidActivity`. -/
def matchCodes : List (List Nat) → Except String (List Activity)
  | [] => .ok []
  | scalars :: rest =>
    match activityOfCode (strOfScalars (rustTrim scalars)) with
    | none => .error (strOfScalars (rustTrim scalars))
    | some a =>
      match matchCodes rest with
      | .error e => .error e
      | .ok l => .ok (a :: l)

/-- The whole decoding loop over the chunk sequence: collect first
(panicking on any invalid-UTF-8 chunk), then match each code. -/
def processChunks (cs : List (List Nat)) : PResult String (List Activity) :=
  match unwrapChunks cs with
  | none => .aborted
  | some strs =>
    match matchCodes strs with
    | .error s => .err s
    | .ok l => .ok l

/-- Inner walk of `Vec::dedup_by(|a, _| *a == Activity::None)`: `kept` is
the previously retained element (dedup_by's second argument, which this
predicate ignores); the current element is removed exactly when it equals
`Activity.None`. -/
def dedupNoneGo (kept : Activity) : List Activity → List Activity
  | [] => []
  | y :: ys => if y = Activity.None then dedupNoneGo kept ys else y :: dedupNoneGo y ys

/-- `ret.dedup_by(|a, _| *a == Activity::None)` from the source: the
first element is always retained (dedup_by never removes the head). -/
def dedupNone : List Activity → List Activity
  | [] => []
  | x :: xs => x :: dedupNoneGo x xs

/-- The whole activity decoder applied to the raw bytes of a (non-empty)
activities text: chunk, decode each chunk, then dedup. -/
def decodeActivities (bytes : List Nat) : PResult String (List Activity) :=
  PResult.map dedupNone (processChunks (chunks2 bytes))

/-- The dedup rule as the specification words it (for comparison with
the implementation): collapse immediately-adjacent duplicate "no
activity" markers to one, keeping a marker that is not adjacent to
another marker. -/
def collapseAdjacentNone : List Activity → List Activity
  | [] => []
  | x :: xs =>
    match collapseAdjacentNone xs with
    | [] => [x]
    | y :: ys => if x = Activity.None ∧ y = Activity.None then y :: ys else x :: y :: ys


/-- ASCII digit test. -/
def isDigitCh (c : Char) : Bool :=
  '0' ≤ c && c ≤ '9'

/-- Numeric value of a digit string. -/
def digitsVal (l : List Char) : Nat :=
  l.foldl (fun acc c => acc * 10 + (c.toNat - 48)) 0

/-- Skip an optional fractional-seconds part (a dot followed by at least
one digit); `none` when a dot is not followed by a digit. -/
def dropFrac : List Char → Option (List Char)
  | '.' :: rest =>
    if (rest.takeWhile isDigitCh).isEmpty then none
    else some (rest.dropWhile isDigitCh)
  | rest => some rest

/-- An RFC 3339 numeric offset (`Z`/`z` or `±HH:MM`). -/
def offsetValid : List Char → Bool
  | ['Z'] => true
  | ['z'] => true
  | [sgn, a, b, ':', c, d] =>
    (sgn == '+' || sgn == '-') && [a, b, c, d].all isDigitCh &&
      decide (digitsVal [a, b] ≤ 23 ∧ digitsVal [c, d] ≤ 59)
  | _ => false

/-- Executable model of the language accepted by
`chrono::DateTime::parse_from_rfc3339`: strict RFC 3339 date-times
`YYYY-MM-DDTHH:MM:SS[.frac](Z|±HH:MM)` with basic range checks. -/
def rfc3339Valid (s : String) : Bool :=
  match s.toList with
  | y1 :: y2 :: y3 :: y4 :: '-' :: m1 :: m2 :: '-' :: d1 :: d2 :: t :: h1 :: h2 :: ':' :: n1 :: n2 :: ':' :: p1 :: p2 :: rest =>
    [y1, y2, y3, y4, m1, m2, d1, d2, h1, h2, n1, n2, p1, p2].all isDigitCh &&
    (t == 'T' || t == 't' || t == ' ') &&
    decide (1 ≤ digitsVal [m1, m2] ∧ digitsVal [m1, m2] ≤ 12 ∧
            1 ≤ digitsVal [d1, d2] ∧ digitsVal [d1, d2] ≤ 31 ∧
            digitsVal [h1, h2] ≤ 23 ∧ digitsVal [n1, n2] ≤ 59 ∧
            digitsVal [p1, p2] ≤ 60) &&
    (match dropFrac rest with
     | none => false
     | some r => offsetValid r)
  | _ => false

/-- Executable model of `NaiveDate::parse_from_str(text, "%Y-%m-%d")`. -/
def dateValid (s : String) : Bool :=
  match s.toList with
  | [y1, y2, y3, y4, '-', m1, m2, '-', d1, d2] =>
    [y1, y2, y3, y4, m1, m2, d1, d2].all isDigitCh &&
    decide (1 ≤ digitsVal [m1, m2] ∧ digitsVal [m1, m2] ≤ 12 ∧
            1 ≤ digitsVal [d1, d2] ∧ digitsVal [d1, d2] ≤ 31)
  | _ => false

/-- Model of `str::parse::<uN>()`: optional leading `+`, at least one
digit, all digits, value within the type's range. -/
def rustParseNat (s : String) (hi : Nat) : Option Nat :=
  let cs :=
    match s.toList with
    | '+' :: rest => rest
    | cs => cs
  if cs.isEmpty then none
  else if cs.all isDigitCh then
    if digitsVal cs ≤ hi then some (digitsVal cs) else none
  else none

namespace Lib

/-- `ParsingError` from lib.rs. -/
inductive ParsingError where
  | InvalidTagName (expected : String) (found : String)
  | InvalidActivity (code : String)
  | InvalidForecast (text : String)
  | InvalidAssociationCategory (text : String)
  | MissingField (fieldName : String)
  | InvalidField (field : String) (expected : String) (found : Option String)
  | UnsupportedServiceType (text : String)
deriving DecidableEq, Repr

/-- `Traversable::field_text` from lib.rs: first child with the tag, its
direct text; a missing child is `MissingField`, a child without text is
`InvalidField { expected: "text", found: None }`. -/
def fieldText (n : XNode) (fieldName : String) : Except ParsingError String :=
  match n.children.find? (fun c => c.tag == fieldName) with
  | none => .error (.MissingField fieldName)
  | some c =>
    match c.text with
    | none => .error (.InvalidField fieldName "text" none)
    | some t => .ok t

/-- `Traversable::field_time`: `field_text` then
`DateTime::parse_from_rfc3339` (the parsed value is modelled by the
accepted text). -/
def fieldTime (n : XNode) (fieldName : String) : Except ParsingError String :=
  match fieldText n fieldName with
  | .error e => .error e
  | .ok t => if rfc3339Valid t then .ok t else .error (.InvalidField fieldName "DateTime" (some t))

/-- `Traversable::field_date`: `field_text` then
`NaiveDate::parse_from_str(_, "%Y-%m-%d")`. -/
def fieldDate (n : XNode) (fieldName : String) : Except ParsingError String :=
  match fieldText n fieldName with
  | .error e => .error e
  | .ok t => if dateValid t then .ok t else .error (.InvalidField fieldName "NaiveDate" (some t))

/-- `Traversable::field_bool`: exactly `"true"`/`"false"`, other text is
`InvalidField`, a failed text lookup yields the default. -/
def fieldBool (n : XNode) (fieldName : String) (dflt : Bool) : Except ParsingError Bool :=
  match fieldText n fieldName with
  | .ok "true" => .ok true
  | .ok "false" => .ok false
  | .ok x => .error (.InvalidField fieldName "bool" (some x))
  | .error _ => .ok dflt

/-- `Traversable::field::<uN>`: `field_text` then `str::parse`, with the
Rust type name reported in `InvalidField.expected`. -/
def fieldNat (n : XNode) (fieldName tyName : String) (hi : Nat) : Except ParsingError Nat :=
  match fieldText n fieldName with
  | .error e => .error e
  | .ok t =>
    match rustParseNat t hi with
    | some v => .ok v
    | none => .error (.InvalidField fieldName tyName (some t))

structure Location where
  name : String
  crs : Option String
  tiploc : Option String
deriving DecidableEq, Repr

inductive AssociationCategory where
  | Join
  | Divide
  | LinkedFrom
  | LinkedTo
deriving DecidableEq, Repr

structure Association where
  category : AssociationCategory
  rid : String
  uid : String
  trainid : String
  rsid : Option String
  sdd : String
  origin : Option Location
  destination : Option Location
  cancelled : Bool
deriving DecidableEq, Repr

/-- lib.rs `ForecastType`: this iteration has only the two variants. -/
inductive ForecastType where
  | Estimated
  | Actual
deriving DecidableEq, Repr

structure ServiceTime where
  scheduled : Option String
  time : Option String
  forecast_type : Option ForecastType
  source : Option String
deriving DecidableEq, Repr

structure ServiceLocation where
  location : Location
  associations : Option (List Association)
  adhoc_alerts : Option (List String)
  activities : Option (List Activity)
  length : Option Nat
  detach_front : Bool
  operational : Bool
  pass : Bool
  cancelled : Bool
  false_destination : Option Location
  platform : Option Nat
  platform_hidden : Bool
  suppressed : Bool
  arrival_time : Option ServiceTime
  departure_time : Option ServiceTime
  lateness : Option String
deriving DecidableEq, Repr

structure ServiceDetails where
  generated_at : String
  rid : String
  uid : String
  rsid : Option String
  trainid : String
  sdd : String
  passenger_service : Bool
  charter : Bool
  category : String
  operator : String
  operator_code : String
  cancel_reason : Option String
  delay_reason : Option String
  reverse_formation : Bool
  locations : List ServiceLocation
deriving DecidableEq, Repr

/-- `parse_association` from lib.rs (field evaluation in source struct
literal order; `x.parse().unwrap()` on tag/category text is the
infallible `String: FromStr` and never panics). -/
def parse_association (assoc : XNode) : Except ParsingError Association := do
  if assoc.tag ≠ "association" then
    throw (.InvalidTagName "association" assoc.tag)
  let cat ← fieldText assoc "category"
  let category ← (match cat with
    | "divide" => pure AssociationCategory.Divide
    | "join" => pure AssociationCategory.Join
    | x => throw (ParsingError.InvalidAssociationCategory x) : Except ParsingError AssociationCategory)
  let rid ← fieldText assoc "rid"
  let uid ← fieldText assoc "uid"
  let trainid ← fieldText assoc "trainid"
  let rsid := okOpt (fieldText assoc "rsid")
  let sdd ← fieldDate assoc "sdd"
  let originName ← fieldText assoc "origin"
  let destName ← fieldText assoc "destination"
  let cancelled ← fieldBool assoc "cancelled" false
  pure { category, rid, uid, trainid, rsid, sdd,
         origin := some { name := originName,
                          crs := okOpt (fieldText assoc "originCRS"),
                          tiploc := okOpt (fieldText assoc "originTiploc") },
         destination := some { name := destName,
                               crs := okOpt (fieldText assoc "destCRS"),
                               tiploc := okOpt (fieldText assoc "destTiploc") },
         cancelled }

/-- Sequential parse of the children of an `associations` element
(`for node in associations.children() { vec.push(parse_association(node)?) }`). -/
def goAssoc : List XNode → Except ParsingError (List Association)
  | [] => .ok []
  | n :: ns =>
    match parse_association n with
    | .error e => .error e
    | .ok a =>
      match goAssoc ns with
      | .error e => .error e
      | .ok l => .ok (a :: l)

/-- The `associations:` field block of `parse_service_location`. -/
def parseAssociationsField (loc : XNode) : Except ParsingError (Option (List Association)) :=
  match loc.children.find? (fun c => c.tag == "associations") with
  | none => .ok none
  | some assocs =>
    match goAssoc assocs.children with
    | .error e => .error e
    | .ok l => .ok (some l)

/-- The `activities:` field block of `parse_service_location`:
`field_text("activities")?` (mandatory), empty text is `None`, otherwise
the chunk decoder runs on the UTF-8 bytes (panics modelled as
`aborted`). -/
def parseActivitiesField (loc : XNode) : PResult ParsingError (Option (List Activity)) :=
  match fieldText loc "activities" with
  | .error e => .err e
  | .ok s =>
    if s = "" then .ok none
    else
      match decodeActivities (utf8Bytes s) with
      | .aborted => .aborted
      | .err c => .err (.InvalidActivity c)
      | .ok acts => .ok (some acts)

/-- The `length:` field block: `field::<u16>`, with `0` mapped to
`None` and any error mapped to `None`. -/
def lengthField (loc : XNode) : Option Nat :=
  match fieldNat loc "length" "u16" 65535 with
  | .ok x => if x = 0 then none else some x
  | .error _ => none

/-- The `false_destination:` field block. -/
def falseDestField (loc : XNode) : Option Location :=
  (okOpt (fieldText loc "falseDest")).map fun nm =>
    { name := nm, crs := none, tiploc := okOpt (fieldText loc "fdTiploc") }

/-- The `arrival_time:` field block of lib.rs `parse_service_location`:
a failed `field_time("sta")` omits the whole record without error;
otherwise `arrivalType` is mandatory and must be `"Actual"` or
`"Forecast"`, the effective time is `ata` resp. `eta` (optional). -/
def parseArrivalTime (loc : XNode) : Except ParsingError (Option ServiceTime) :=
  match fieldTime loc "sta" with
  | .error _ => .ok none
  | .ok sta =>
    match fieldText loc "arrivalType" with
    | .error e => .error e
    | .ok "Actual" =>
      .ok (some { scheduled := some sta, time := okOpt (fieldTime loc "ata"),
                  forecast_type := some .Actual, source := okOpt (fieldText loc "arrivalSource") })
    | .ok "Forecast" =>
      .ok (some { scheduled := some sta, time := okOpt (fieldTime loc "eta"),
                  forecast_type := some .Estimated, source := okOpt (fieldText loc "arrivalSource") })
    | .ok x => .error (.InvalidForecast x)

/-- The `departure_time:` field block, symmetric to the arrival one over
`std`/`departureType`/`atd`/`etd`/`departureSource`. -/
def parseDepartureTime (loc : XNode) : Except ParsingError (Option ServiceTime) :=
  match fieldTime loc "std" with
  | .error _ => .ok none
  | .ok std =>
    match fieldText loc "departureType" with
    | .error e => .error e
    | .ok "Actual" =>
      .ok (some { scheduled := some std, time := okOpt (fieldTime loc "atd"),
                  forecast_type := some .Actual, source := okOpt (fieldText loc "departureSource") })
    | .ok "Forecast" =>
      .ok (some { scheduled := some std, time := okOpt (fieldTime loc "etd"),
                  forecast_type := some .Estimated, source := okOpt (fieldText loc "departureSource") })
    | .ok x => .error (.InvalidForecast x)

/-- `parse_service_location` from lib.rs.  The fallible field blocks are
sequenced in the source's struct-literal evaluation order; infallible
blocks (`length`, `false_destination`, `platform`, `lateness`, `crs`,
`tiploc`) are computed in the result record.  An `adhocAlerts` child
reaches `todo!()` and panics (`aborted`). -/
def parse_service_location (loc : XNode) : PResult ParsingError ServiceLocation :=
  if loc.tag ≠ "location" then .err (.InvalidTagName "location" loc.tag) else
  match fieldText loc "locationName" with
  | .error e => .err e
  | .ok locName =>
  match parseAssociationsField loc with
  | .error e => .err e
  | .ok assocs =>
  if hasChild loc "adhocAlerts" then .aborted else
  match parseActivitiesField loc with
  | .aborted => .aborted
  | .err e => .err e
  | .ok acts =>
  match fieldBool loc "detachFront" false with
  | .error e => .err e
  | .ok detachFront =>
  match fieldBool loc "isOperational" false with
  | .error e => .err e
  | .ok operational =>
  match fieldBool loc "isPass" false with
  | .error e => .err e
  | .ok pass =>
  match fieldBool loc "isCancelled" false with
  | .error e => .err e
  | .ok cancelled =>
  match fieldBool loc "platformIsHidden" false with
  | .error e => .err e
  | .ok platformHidden =>
  match fieldBool loc "serviceIsSupressed" false with
  | .error e => .err e
  | .ok suppressed =>
  match parseArrivalTime loc with
  | .error e => .err e
  | .ok arrivalTime =>
  match parseDepartureTime loc with
  | .error e => .err e
  | .ok departureTime =>
  .ok { location := { name := locName,
                      crs := okOpt (fieldText loc "crs"),
                      tiploc := okOpt (fieldText loc "tiploc") },
        associations := assocs,
        adhoc_alerts := none,
        activities := acts,
        length := lengthField loc,
        detach_front := detachFront,
        operational, pass, cancelled,
        false_destination := falseDestField loc,
        platform := okOpt (fieldNat loc "platform" "u8" 255),
        platform_hidden := platformHidden,
        suppressed,
        arrival_time := arrivalTime,
        departure_time := departureTime,
        lateness := okOpt (fieldText loc "lateness") }

/-- The location loop of `parse_service_details`:
`for node in ... { vec.push(parse_service_location(node)?) }` — the
first error or panic aborts, later children are not processed. -/
def parseLocations : List XNode → PResult ParsingError (List ServiceLocation)
  | [] => .ok []
  | n :: ns =>
    match parse_service_location n with
    | .aborted => .aborted
    | .err e => .err e
    | .ok l =>
      match parseLocations ns with
      | .aborted => .aborted
      | .err e => .err e
      | .ok ls => .ok (l :: ls)

/-- `parse_service_details` from lib.rs: tag check, then the
`serviceType` gate, then the scalar fields in struct-literal order, then
the `locations` container and its children. -/
def parse_service_details (details : XNode) : PResult ParsingError ServiceDetails :=
  if details.tag ≠ "GetServiceDetailsResult" then
    .err (.InvalidTagName "GetServiceDetailsResult" details.tag) else
  match fieldText details "serviceType" with
  | .error e => .err e
  | .ok typ =>
  if typ ≠ "train" then .err (.UnsupportedServiceType typ) else
  match fieldTime details "generatedAt" with
  | .error e => .err e
  | .ok generatedAt =>
  match fieldText details "rid" with
  | .error e => .err e
  | .ok rid =>
  match fieldText details "uid" with
  | .error e => .err e
  | .ok uid =>
  match fieldText details "trainid" with
  | .error e => .err e
  | .ok trainid =>
  match fieldDate details "sdd" with
  | .error e => .err e
  | .ok sdd =>
  match fieldBool details "isPassengerService" true with
  | .error e => .err e
  | .ok passengerService =>
  match fieldBool details "isCharter" false with
  | .error e => .err e
  | .ok charter =>
  match fieldText details "category" with
  | .error e => .err e
  | .ok category =>
  match fieldText details "operator" with
  | .error e => .err e
  | .ok operatorName =>
  match fieldText details "operatorCode" with
  | .error e => .err e
  | .ok operatorCode =>
  match fieldBool details "isReverseFormation" false with
  | .error e => .err e
  | .ok reverseFormation =>
  match details.children.find? (fun c => c.tag == "locations") with
  | none => .err (.MissingField "locations")
  | some locs =>
  match parseLocations locs.children with
  | .aborted => .aborted
  | .err e => .err e
  | .ok locations =>
  .ok { generated_at := generatedAt, rid, uid,
        rsid := okOpt (fieldText details "rsid"),
        trainid, sdd,
        passenger_service := passengerService,
        charter, category,
        operator := operatorName,
        operator_code := operatorCode,
        cancel_reason := okOpt (fieldText details "cancelReason"),
        delay_reason := okOpt (fieldText details "delayReason"),
        reverse_formation := reverseFormation,
        locations }

end Lib

namespace Services

/-- `ParsingError` from parsable.rs (`InvalidTagName` carries only the
expected tag here; `XMLParseError` wraps a `roxmltree::Error`, which has
no observable structure at this level). -/
inductive ParsingError where
  | InvalidTagName (expected : String)
  | InvalidActivity (code : String)
  | InvalidForecast (text : String)
  | InvalidAssociationCategory (text : String)
  | MissingField (fieldName : String)
  | InvalidField (field : String) (expected : String) (found : Option String)
  | UnsupportedServiceType (text : String)
  | XMLParseError
deriving DecidableEq, Repr

/-- The `text!` macro from parsable.rs: find the child by tag
(`MissingField` when absent); a present child yields its text, or the
empty string when it has no text child. -/
def textS (n : XNode) (fieldName : String) : Except ParsingError String :=
  match n.children.find? (fun c => c.tag == fieldName) with
  | none => .error (.MissingField fieldName)
  | some c => .ok (c.text.getD "")

/-- The `time!` macro: `text!` then `DateTime::parse_from_rfc3339`. -/
def timeS (n : XNode) (fieldName : String) : Except ParsingError String :=
  match textS n fieldName with
  | .error e => .error e
  | .ok t => if rfc3339Valid t then .ok t else .error (.InvalidField fieldName "DateTime" (some t))

/-- The `date!` macro: `text!` then `NaiveDate::parse_from_str`. -/
def dateS (n : XNode) (fieldName : String) : Except ParsingError String :=
  match textS n fieldName with
  | .error e => .error e
  | .ok t => if dateValid t then .ok t else .error (.InvalidField fieldName "NaiveDate" (some t))

/-- The `bool!` macro: `"true"`/`"false"`/the default on empty text;
other text is `InvalidField`; a missing child yields the default. -/
def boolS (n : XNode) (fieldName : String) (dflt : Bool) : Except ParsingError Bool :=
  match textS n fieldName with
  | .ok "true" => .ok true
  | .ok "false" => .ok false
  | .ok "" => .ok dflt
  | .ok x => .error (.InvalidField fieldName "bool" (some x))
  | .error _ => .ok dflt

/-- The `child!` macro: first child with the tag or `MissingField`. -/
def childS (n : XNode) (fieldName : String) : Except ParsingError XNode :=
  match n.children.find? (fun c => c.tag == fieldName) with
  | none => .error (.MissingField fieldName)
  | some c => .ok c

/-- The `parse!` macro at `uN`:
`text!(...).unwrap_or("").parse::<uN>()` — a missing child parses the
empty string and fails, with no structured error (callers use `.ok()` or
match on the `Result`). -/
def parseNatS (n : XNode) (fieldName : String) (hi : Nat) : Option Nat :=
  rustParseNat ((okOpt (textS n fieldName)).getD "") hi

structure Location where
  name : String
  crs : Option String
  tiploc : Option String
deriving DecidableEq, Repr

/-- services.rs `ForecastType`: the five-variant iteration. -/
inductive ForecastType where
  | Estimated
  | Actual
  | NoLog
  | NoReport
  | Delayed
deriving DecidableEq, Repr

/-- associations.rs `AssociationCategory`. -/
inductive AssociationCategory where
  | Join
  | Divide
  | Next
deriving DecidableEq, Repr

structure Association where
  category : AssociationCategory
  rid : String
  uid : String
  trainid : String
  rsid : Option String
  sdd : String
  origin : Option Location
  destination : Option Location
  cancelled : Bool
deriving DecidableEq, Repr

/-- services.rs `ServiceTime`: both directions in one record. -/
structure ServiceTime where
  scheduled_arrival : Option String
  scheduled_departure : Option String
  arrival : Option String
  departure : Option String
  arrival_forecast_type : Option ForecastType
  departure_forecast_type : Option ForecastType
  arrival_source : Option String
  arrival_source_instance : Option String
  departure_source : Option String
  departure_source_instance : Option String
deriving DecidableEq, Repr

structure ServiceLocation where
  location : Location
  associations : Option (List Association)
  adhoc_alerts : Option (List String)
  activities : Option (List Activity)
  length : Option Nat
  detach_front : Bool
  operational : Bool
  pass : Bool
  cancelled : Bool
  false_destination : Option Location
  platform : Option Nat
  platform_hidden : Bool
  suppressed : Bool
  time : ServiceTime
  lateness : Option String
deriving DecidableEq, Repr

/-- `Traversable::get_text` from traversable.rs: the node's own text, or
`InvalidField` (reporting the node's tag) when it has none. -/
def getTextT (n : XNode) : Except ParsingError String :=
  match n.text with
  | some t => .ok t
  | none => .error (.InvalidField n.tag "text" none)

/-- `Traversable::get_bool` from traversable.rs. -/
def getBoolT (n : XNode) (dflt : Bool) : Except ParsingError Bool :=
  match getTextT n with
  | .ok "true" => .ok true
  | .ok "false" => .ok false
  | .ok x => .error (.InvalidField n.tag "bool" (some x))
  | .error _ => .ok dflt

/-- `Traversable::get_date` from traversable.rs. -/
def getDateT (n : XNode) : Except ParsingError String :=
  match getTextT n with
  | .error e => .error e
  | .ok t => if dateValid t then .ok t else .error (.InvalidField n.tag "NaiveDate" (some t))

/-- `child(...)?` then text extraction, as associations.rs writes
`Traversable::text(&association.child(name)?)?`. -/
def childText (n : XNode) (fieldName : String) : Except ParsingError String :=
  match childS n fieldName with
  | .error e => .error e
  | .ok c => getTextT c

/-- `Association::parse` from associations.rs.  Note that every
optional-text field applies `?` to the child lookup and `.ok()` only to
the text extraction, so a missing `rsid`/`originCRS`/... element is a
fatal `MissingField`.  The source writes `.bool(false)` on the
`cancelled` child without `?`, which does not typecheck in Rust; the
evident intent (propagating the `Result` like every other field) is
modelled. -/
def AssociationParse (assoc : XNode) : Except ParsingError Association := do
  if assoc.tag ≠ "association" then
    throw (.InvalidTagName "association")
  let cat ← childText assoc "category"
  let category ← (match cat with
    | "divide" => pure AssociationCategory.Divide
    | "join" => pure AssociationCategory.Join
    | "next" => pure AssociationCategory.Next
    | x => throw (ParsingError.InvalidAssociationCategory x) : Except ParsingError AssociationCategory)
  let rid ← childText assoc "rid"
  let uid ← childText assoc "uid"
  let trainid ← childText assoc "trainid"
  let rsidChild ← childS assoc "rsid"
  let rsid := okOpt (getTextT rsidChild)
  let sddChild ← childS assoc "sdd"
  let sdd ← getDateT sddChild
  let originName ← childText assoc "origin"
  let originCrsChild ← childS assoc "originCRS"
  let originTiplocChild ← childS assoc "originTiploc"
  let destName ← childText assoc "destination"
  let destCrsChild ← childS assoc "destCRS"
  let destTiplocChild ← childS assoc "destTiploc"
  let cancChild ← childS assoc "cancelled"
  let cancelled ← getBoolT cancChild false
  pure { category, rid, uid, trainid, rsid, sdd,
         origin := some { name := originName,
                          crs := okOpt (getTextT originCrsChild),
                          tiploc := okOpt (getTextT originTiplocChild) },
         destination := some { name := destName,
                               crs := okOpt (getTextT destCrsChild),
                               tiploc := okOpt (getTextT destTiplocChild) },
         cancelled }

/-- Sequential parse of the children of an `associations` element. -/
def goAssocS : List XNode → Except ParsingError (List Association)
  | [] => .ok []
  | n :: ns =>
    match AssociationParse n with
    | .error e => .error e
    | .ok a =>
      match goAssocS ns with
      | .error e => .error e
      | .ok l => .ok (a :: l)

/-- The `associations:` field block of `ServiceLocation::parse`. -/
def assocFieldS (loc : XNode) : Except ParsingError (Option (List Association)) :=
  match childS loc "associations" with
  | .error _ => .ok none
  | .ok assocs =>
    match goAssocS assocs.children with
    | .error e => .error e
    | .ok l => .ok (some l)

/-- The `activities:` field block of `ServiceLocation::parse` (same
decoder loop as lib.rs, over the `text!` semantics). -/
def activitiesFieldS (loc : XNode) : PResult ParsingError (Option (List Activity)) :=
  match textS loc "activities" with
  | .error e => .err e
  | .ok s =>
    if s = "" then .ok none
    else
      match decodeActivities (utf8Bytes s) with
      | .aborted => .aborted
      | .err c => .err (.InvalidActivity c)
      | .ok acts => .ok (some acts)

/-- The `length:` field block of `ServiceLocation::parse`. -/
def lengthFieldS (loc : XNode) : Option Nat :=
  match parseNatS loc "length" 65535 with
  | some x => if x = 0 then none else some x
  | none => none

/-- The `false_destination:` field block of `ServiceLocation::parse`. -/
def falseDestFieldS (loc : XNode) : Option Location :=
  (okOpt (textS loc "falseDest")).map fun nm =>
    { name := nm, crs := none, tiploc := okOpt (textS loc "fdTiploc") }

/-- The forecast-type match of services.rs (lines 404-412 resp.
417-425): the five accepted texts and the `InvalidForecast` fall-through.
The source's `"Forecast"` arm names `ForecastType::Forecast`, a variant
that does not exist in its own enum declaration; `Estimated` is the
evident referent (the enum's first variant, documented as the estimated
time, and the one whose resolution reads `eta` — matching the lib.rs
iteration's `"Forecast" => ForecastType::Estimated`). -/
def parseForecastTypeText (typ : String) : Except ParsingError ForecastType :=
  match typ with
  | "Forecast" => .ok .Estimated
  | "Actual" => .ok .Actual
  | "NoLog" => .ok .NoLog
  | "NoReport" => .ok .NoReport
  | "Delayed" => .ok .Delayed
  | x => .error (.InvalidForecast x)

/-- `arrival_forecast_type` of the `time:` block: a readable
`arrivalType` text must be a closed variant (fatal otherwise); a failed
text lookup yields `None`. -/
def arrivalForecastType (loc : XNode) : Except ParsingError (Option ForecastType) :=
  match textS loc "arrivalType" with
  | .ok t =>
    match parseForecastTypeText t with
    | .ok ft => .ok (some ft)
    | .error e => .error e
  | .error _ => .ok none

/-- `departure_forecast_type` of the `time:` block, over
`departureType`. -/
def departureForecastType (loc : XNode) : Except ParsingError (Option ForecastType) :=
  match textS loc "departureType" with
  | .ok t =>
    match parseForecastTypeText t with
    | .ok ft => .ok (some ft)
    | .error e => .error e
  | .error _ => .ok none

/-- The `arrival:` resolution of the `time:` block (services.rs lines
432-443): Estimated reads `eta`, Actual reads `ata`, NoLog/NoReport
yield nothing, Delayed reads `eta`; no forecast type yields nothing. -/
def resolveArrival (loc : XNode) : Option ForecastType → Option String
  | some .Estimated => okOpt (timeS loc "eta")
  | some .Actual => okOpt (timeS loc "ata")
  | some .NoLog => none
  | some .NoReport => none
  | some .Delayed => okOpt (timeS loc "eta")
  | none => none

/-- The whole `time:` field block of `ServiceLocation::parse`
(services.rs lines 402-452): both forecast types are parsed first (each
can fail the whole parse), then the record is assembled — `departure`
and the four source fields are literally `None` in the source. -/
def parseServiceTime (loc : XNode) : Except ParsingError ServiceTime :=
  match arrivalForecastType loc with
  | .error e => .error e
  | .ok aft =>
  match departureForecastType loc with
  | .error e => .error e
  | .ok dft =>
  .ok { scheduled_arrival := okOpt (timeS loc "sta"),
        scheduled_departure := okOpt (timeS loc "std"),
        arrival := resolveArrival loc aft,
        departure := none,
        arrival_forecast_type := aft,
        departure_forecast_type := dft,
        arrival_source := none,
        arrival_source_instance := none,
        departure_source := none,
        departure_source_instance := none }

/-- `ServiceLocation::parse` from services.rs.  Fallible field blocks in
struct-literal evaluation order; an `adhocAlerts` child reaches the
`todo!()` inside `and_then` and panics. -/
def ServiceLocationParse (loc : XNode) : PResult ParsingError ServiceLocation :=
  if loc.tag ≠ "location" then .err (.InvalidTagName "location") else
  match textS loc "locationName" with
  | .error e => .err e
  | .ok locName =>
  match assocFieldS loc with
  | .error e => .err e
  | .ok assocs =>
  if hasChild loc "adhocAlerts" then .aborted else
  match activitiesFieldS loc with
  | .aborted => .aborted
  | .err e => .err e
  | .ok acts =>
  match boolS loc "detachFront" false with
  | .error e => .err e
  | .ok detachFront =>
  match boolS loc "isOperational" false with
  | .error e => .err e
  | .ok operational =>
  match boolS loc "isPass" false with
  | .error e => .err e
  | .ok pass =>
  match boolS loc "isCancelled" false with
  | .error e => .err e
  | .ok cancelled =>
  match boolS loc "platformIsHidden" false with
  | .error e => .err e
  | .ok platformHidden =>
  match boolS loc "serviceIsSupressed" false with
  | .error e => .err e
  | .ok suppressed =>
  match parseServiceTime loc with
  | .error e => .err e
  | .ok time =>
  .ok { location := { name := locName,
                      crs := okOpt (textS loc "crs"),
                      tiploc := okOpt (textS loc "tiploc") },
        associations := assocs,
        adhoc_alerts := none,
        activities := acts,
        length := lengthFieldS loc,
        detach_front := detachFront,
        operational, pass, cancelled,
        false_destination := falseDestFieldS loc,
        platform := parseNatS loc "platform" 255,
        platform_hidden := platformHidden,
        suppressed, time,
        lateness := okOpt (textS loc "lateness") }

end Services

/-- All chunks of the UTF-8 bytes of an activities text decode as UTF-8
(the condition under which the decoding loop cannot panic). -/
def chunksOk (s : String) : Bool :=
  (chunks2 (utf8Bytes s)).all (fun c => (utf8Chunk c).isSome)

/-- Shorthand for a leaf element carrying text. -/
def tnode (tagName txt : String) : XNode :=
  .mk tagName (some txt) []

/-- A plain, fully parseable location: a name and a `TB` activity. -/
def fixLocPlain : XNode :=
  .mk "location" none [tnode "locationName" "Here", tnode "activities" "TB"]

/-- A location with no `sta`/`std` but with `arrivalType`, `eta` and
`ata` present (the `arrivalType` text is not even a valid forecast
type), and empty activities text. -/
def fixLocNoSta : XNode :=
  .mk "location" none
    [tnode "locationName" "Here",
     tnode "activities" "",
     tnode "arrivalType" "Garbage",
     tnode "eta" "2024-01-01T10:00:00Z",
     tnode "ata" "2024-01-01T10:01:00Z"]

/-- The record `fixLocNoSta` parses to under lib.rs
`parse_service_location`. -/
def fixSlNoSta : Lib.ServiceLocation :=
  { location := { name := "Here", crs := none, tiploc := none },
    associations := none, adhoc_alerts := none, activities := none,
    length := none, detach_front := false, operational := false,
    pass := false, cancelled := false, false_destination := none,
    platform := none, platform_hidden := false, suppressed := false,
    arrival_time := none, departure_time := none, lateness := none }

/-- A location whose `arrivalType` text is outside the closed variant
set. -/
def fixLocBadForecast : XNode :=
  .mk "location" none
    [tnode "locationName" "X",
     tnode "activities" "",
     tnode "arrivalType" "Garbage"]

/-- An arbitrary services.rs `ServiceTime` record (all fields empty). -/
def fixStEmpty : Services.ServiceTime :=
  { scheduled_arrival := none, scheduled_departure := none,
    arrival := none, departure := none,
    arrival_forecast_type := none, departure_forecast_type := none,
    arrival_source := none, arrival_source_instance := none,
    departure_source := none, departure_source_instance := none }

/-- An arbitrary services.rs `ServiceLocation` record, used to
instantiate universally quantified "never succeeds" conclusions. -/
def fixSlDummy : Services.ServiceLocation :=
  { location := { name := "X", crs := none, tiploc := none },
    associations := none, adhoc_alerts := none, activities := none,
    length := none, detach_front := false, operational := false,
    pass := false, cancelled := false, false_destination := none,
    platform := none, platform_hidden := false, suppressed := false,
    time := fixStEmpty, lateness := none }

/-- A location with `arrivalType` = `"Forecast"` and an `eta` but no
`ata` (and no departure-side fields). -/
def fixLocForecastEta : XNode :=
  .mk "location" none
    [tnode "arrivalType" "Forecast",
     tnode "eta" "2024-01-01T10:00:00Z",
     tnode "sta" "2024-01-01T09:58:00Z"]

/-- A location with `arrivalType` = `"Actual"`, a scheduled arrival, and
no `ata`. -/
def fixLocActualNoAta : XNode :=
  .mk "location" none
    [tnode "arrivalType" "Actual",
     tnode "sta" "2024-01-01T09:58:00Z",
     tnode "eta" "2024-01-01T10:00:00Z"]

/-- A location with `arrivalType` = `"Delayed"` and an `eta`. -/
def fixLocDelayedEta : XNode :=
  .mk "location" none
    [tnode "arrivalType" "Delayed",
     tnode "eta" "2024-01-01T10:00:00Z"]

/-- A location whose activities text starts with the unknown chunk
`ZZ`. -/
def fixLocZZ : XNode :=
  .mk "location" none [tnode "locationName" "X", tnode "activities" "ZZTB"]

/-- A location whose activities text has the unknown chunk `ZZ` followed
by `aé`: the byte sequence is `[90, 90, 97, 195, 169]`, so the chunks
are `[90, 90]`, `[97, 195]` and `[169]` — the last two are invalid
UTF-8, and the up-front `collect` panics before `"ZZ"` is ever
matched. -/
def fixLocZZSplit : XNode :=
  .mk "location" none [tnode "locationName" "X", tnode "activities" "ZZaé"]

/-- The element children of the `locations` container of a result
element (empty when the container is absent). -/
def locationsChildren (d : XNode) : List XNode :=
  match d.children.find? (fun c => c.tag == "locations") with
  | none => []
  | some locs => locs.children

/-- A location containing an `adhocAlerts` child (which the source
handles with `todo!()`). -/
def fixLocAdhoc : XNode :=
  .mk "location" none
    [tnode "locationName" "Here",
     tnode "activities" "TB",
     .mk "adhocAlerts" none [tnode "adhocAlertText" "alert"]]

/-- A location whose activities text `"aé"` yields the byte sequence
`[97, 195, 169]`, so `chunks(2)` splits the two-byte character `é`
across chunks (`[97, 195]` and `[169]`, both invalid UTF-8). -/
def fixLocSplit : XNode :=
  .mk "location" none [tnode "locationName" "Here", tnode "activities" "aé"]

/-- A well-formed `GetServiceDetailsResult` shell around the given
location children. -/
def docShell (locs : List XNode) : XNode :=
  .mk "GetServiceDetailsResult" none
    [tnode "serviceType" "train",
     tnode "generatedAt" "2024-01-01T12:00:00+00:00",
     tnode "rid" "202401017126980",
     tnode "uid" "P26980",
     tnode "trainid" "1A01",
     tnode "sdd" "2024-01-01",
     tnode "category" "XX",
     tnode "operator" "Operator",
     tnode "operatorCode" "XX",
     .mk "locations" none locs]

/-- A fully valid document. -/
def fixDoc : XNode :=
  docShell [fixLocPlain]

/-- A result element whose `serviceType` is `"bus"`. -/
def fixDocBus : XNode :=
  .mk "GetServiceDetailsResult" none [tnode "serviceType" "bus"]

/-- A document whose single location carries an `adhocAlerts` child. -/
def fixDocAdhoc : XNode :=
  docShell [fixLocAdhoc]

/-- A document whose single location has the chunk-splitting activities
text. -/
def fixDocSplit : XNode :=
  docShell [fixLocSplit]

theorem dedupNoneGo_eq (kept : Activity) (l : List Activity) :
    dedupNoneGo kept l = l.filter (fun a => a != Activity.None) := by
  induction l generalizing kept with
  | nil => rfl
  | cons y ys ih =>
    by_cases h : y = Activity.None
    · simp [dedupNoneGo, h, ih]
    · simp [dedupNoneGo, h, ih]

theorem dedupNone_eq (l : List Activity) :
    dedupNone l =
      match l with
      | [] => []
      | x :: xs => x :: xs.filter (fun a => a != Activity.None) := by
  cases l <;> simp [dedupNone, dedupNoneGo_eq]

theorem chunks2_append_even : ∀ (u w : List Nat), u.length % 2 = 0 →
    chunks2 (u ++ w) = chunks2 u ++ chunks2 w
  | [], w, _ => by simp [chunks2]
  | [_], _, h => by simp at h
  | a :: b :: rest, w, h => by
    have h' : rest.length % 2 = 0 := by
      simp only [List.length_cons] at h
      omega
    simp [chunks2, chunks2_append_even rest w h']

theorem unwrapChunks_append (xs ys : List (List Nat)) :
    unwrapChunks (xs ++ ys) =
      match unwrapChunks xs, unwrapChunks ys with
      | some a, some b => some (a ++ b)
      | _, _ => none := by
  induction xs with
  | nil =>
    simp only [List.nil_append, unwrapChunks]
    cases unwrapChunks ys <;> simp
  | cons c cs ih =>
    simp only [List.cons_append, unwrapChunks, List.append_eq]
    rw [ih]
    cases utf8Chunk c <;> cases unwrapChunks cs <;> cases unwrapChunks ys <;> simp

theorem matchCodes_append (xs ys : List (List Nat)) :
    matchCodes (xs ++ ys) =
      match matchCodes xs with
      | .error e => .error e
      | .ok l =>
        match matchCodes ys with
        | .error e => .error e
        | .ok m => .ok (l ++ m) := by
  induction xs with
  | nil =>
    simp only [List.nil_append, matchCodes]
    cases matchCodes ys <;> simp
  | cons c cs ih =>
    simp only [List.cons_append, matchCodes, List.append_eq]
    rw [ih]
    cases activityOfCode (strOfScalars (rustTrim c)) <;>
      cases matchCodes cs <;> cases matchCodes ys <;> simp

theorem processChunks_ok_inv (cs : List (List Nat)) (l : List Activity)
    (h : processChunks cs = .ok l) :
    ∃ su, unwrapChunks cs = some su ∧ matchCodes su = .ok l := by
  unfold processChunks at h
  split at h
  next => simp at h
  next su heq =>
    split at h
    next => simp at h
    next m hm =>
      injection h with h
      exact ⟨su, heq, by rw [hm, h]⟩

theorem fieldText_of_not_hasChild (n : XNode) (fieldName : String)
    (h : hasChild n fieldName = false) :
    Lib.fieldText n fieldName = .error (.MissingField fieldName) := by
  unfold hasChild at h
  unfold Lib.fieldText
  cases hf : n.children.find? (fun c => c.tag == fieldName) <;>
    simp [hf] at h ⊢

theorem textS_of_not_hasChild (n : XNode) (fieldName : String)
    (h : hasChild n fieldName = false) :
    Services.textS n fieldName = .error (.MissingField fieldName) := by
  unfold hasChild at h
  unfold Services.textS
  cases hf : n.children.find? (fun c => c.tag == fieldName) <;>
    simp [hf] at h ⊢

theorem fieldTime_of_not_hasChild (n : XNode) (fieldName : String)
    (h : hasChild n fieldName = false) :
    Lib.fieldTime n fieldName = .error (.MissingField fieldName) := by
  unfold Lib.fieldTime
  rw [fieldText_of_not_hasChild n fieldName h]

theorem timeS_of_not_hasChild (n : XNode) (fieldName : String)
    (h : hasChild n fieldName = false) :
    Services.timeS n fieldName = .error (.MissingField fieldName) := by
  unfold Services.timeS
  rw [textS_of_not_hasChild n fieldName h]

/-- Inversion for lib.rs `parse_service_location`: a successful parse
pins the fallible field blocks to the record's fields. -/
theorem lib_parse_ok_inv (loc : XNode) (sl : Lib.ServiceLocation)
    (h : Lib.parse_service_location loc = .ok sl) :
    Lib.parseActivitiesField loc = .ok sl.activities ∧
    Lib.parseArrivalTime loc = .ok sl.arrival_time ∧
    Lib.parseDepartureTime loc = .ok sl.departure_time := by
  unfold Lib.parse_service_location at h
  repeat' split at h
  all_goals try (injection h with h; subst h; refine ⟨?_, ?_, ?_⟩ <;> assumption)
  all_goals injection h

/-- Inversion for services.rs `ServiceLocation::parse`: a successful
parse pins the `time:` block to the record's `time` field. -/
theorem services_parse_ok_inv (loc : XNode) (sl : Services.ServiceLocation)
    (h : Services.ServiceLocationParse loc = .ok sl) :
    Services.parseServiceTime loc = .ok sl.time := by
  unfold Services.ServiceLocationParse at h
  repeat' split at h
  all_goals try (injection h with h; subst h; assumption)
  all_goals injection h

/-- C1 (amended): for every activities byte sequence, the decoded
activity list is the chunk-by-chunk decoding with the first element kept
and every later "no activity" marker removed — `dedup_by` with a
predicate that ignores its second argument drops each non-leading
`Activity.None`, whether or not it is adjacent to another one. -/
theorem c1_dedup_drops_every_nonleading_marker (bytes : List Nat) :
    decodeActivities bytes =
      PResult.map
        (fun r =>
          match r with
          | [] => []
          | x :: xs => x :: xs.filter (fun a => a != Activity.None))
        (processChunks (chunks2 bytes)) := by
  unfold decodeActivities
  cases processChunks (chunks2 bytes) <;>
    simp [PResult.map, dedupNone_eq]

/-- C1 counterexample: the text `"TB  TF"` chunks into `TB`, a
whitespace chunk (the "no activity" marker, not adjacent to any other
marker) and `TF`; the claim predicts the marker is kept, but the decoder
accepts the text and drops it. -/
theorem c1_counterexample :
    decodeActivities (utf8Bytes "TB  TF") =
      .ok [Activity.TrainBegins, Activity.TrainFinishes] ∧
    PResult.map collapseAdjacentNone (processChunks (chunks2 (utf8Bytes "TB  TF"))) =
      .ok [Activity.TrainBegins, Activity.None, Activity.TrainFinishes] ∧
    (PResult.ok [Activity.TrainBegins, Activity.TrainFinishes] :
        PResult String (List Activity)) ≠
      .ok [Activity.TrainBegins, Activity.None, Activity.TrainFinishes] := by
  refine ⟨by decide, by decide, by decide⟩

/-- C8: the activity text `"TBTF"` decodes to exactly
`[TrainBegins, TrainFinishes]`, in that order. -/
theorem c8_tbtf_decodes :
    decodeActivities (utf8Bytes "TBTF") =
      .ok [Activity.TrainBegins, Activity.TrainFinishes] := by
  decide

/-- C6: a location whose activities field has empty overall text parses
with an absent activities list (`none`), not an empty or one-marker
list; this holds both for the activities field block and through the
whole location parse. -/
theorem c6_empty_activities_absent :
    (∀ loc : XNode, Lib.fieldText loc "activities" = .ok "" →
      Lib.parseActivitiesField loc = .ok none) ∧
    (∀ (loc : XNode) (sl : Lib.ServiceLocation),
      Lib.fieldText loc "activities" = .ok "" →
      Lib.parse_service_location loc = .ok sl →
      sl.activities = none) := by
  have hfield : ∀ loc : XNode, Lib.fieldText loc "activities" = .ok "" →
      Lib.parseActivitiesField loc = .ok none := by
    intro loc h
    unfold Lib.parseActivitiesField
    rw [h]
    simp
  refine ⟨hfield, ?_⟩
  intro loc sl h hp
  have h2 := (lib_parse_ok_inv loc sl hp).1
  rw [hfield loc h] at h2
  injection h2 with h2
  exact h2.symm

/-- C6 witness: a concrete location with empty activities text. -/
theorem c6_witness :
    Lib.parseActivitiesField fixLocNoSta = .ok none ∧
    fixSlNoSta.activities = none := by
  refine ⟨c6_empty_activities_absent.1 fixLocNoSta rfl,
          c6_empty_activities_absent.2 fixLocNoSta fixSlNoSta rfl (by decide)⟩

/-- C5: a result element whose `serviceType` text is not exactly
`"train"` fails with `UnsupportedServiceType` carrying the text found;
no `ServiceDetails` value is produced. -/
theorem c5_unsupported_service_type (d : XNode) (t : String)
    (htag : d.tag = "GetServiceDetailsResult")
    (ht : Lib.fieldText d "serviceType" = .ok t)
    (hne : t ≠ "train") :
    Lib.parse_service_details d = .err (.UnsupportedServiceType t) := by
  unfold Lib.parse_service_details
  rw [htag, ht]
  simp [hne]

/-- C5 witness: a concrete result element with `serviceType` `"bus"`. -/
theorem c5_witness :
    Lib.parse_service_details fixDocBus = .err (.UnsupportedServiceType "bus") := by
  exact c5_unsupported_service_type fixDocBus "bus" rfl rfl (by decide)

/-- C9: parsing is a pure function of the node tree — two parses of the
same document yield identical results. -/
theorem c9_parse_deterministic (d : XNode)
    (r1 r2 : PResult Lib.ParsingError Lib.ServiceDetails)
    (h1 : Lib.parse_service_details d = r1)
    (h2 : Lib.parse_service_details d = r2) :
    r1 = r2 := by
  rw [← h1, ← h2]

/-- C9 witness: two parses of a concrete valid document agree. -/
theorem c9_witness :
    Lib.parse_service_details fixDoc = Lib.parse_service_details fixDoc :=
  c9_parse_deterministic fixDoc _ _ rfl rfl

/-- C3: a location with no `sta` child parses with the whole arrival
record absent and no arrival-side error (the `arrivalType`/`eta`/`ata`
children are never read); symmetrically for `std` and the departure
record. -/
theorem c3_missing_sta_omits_arrival (loc : XNode) :
    (hasChild loc "sta" = false → Lib.parseArrivalTime loc = .ok none) ∧
    (hasChild loc "std" = false → Lib.parseDepartureTime loc = .ok none) ∧
    (∀ sl : Lib.ServiceLocation, hasChild loc "sta" = false →
      Lib.parse_service_location loc = .ok sl → sl.arrival_time = none) := by
  have harr : hasChild loc "sta" = false → Lib.parseArrivalTime loc = .ok none := by
    intro h
    unfold Lib.parseArrivalTime
    rw [fieldTime_of_not_hasChild loc "sta" h]
  refine ⟨harr, ?_, ?_⟩
  · intro h
    unfold Lib.parseDepartureTime
    rw [fieldTime_of_not_hasChild loc "std" h]
  · intro sl h hp
    have h2 := (lib_parse_ok_inv loc sl hp).2.1
    rw [harr h] at h2
    injection h2 with h2
    exact h2.symm

/-- C3 witness: a concrete location carrying `arrivalType` (with text
that is not even a valid forecast type), `eta` and `ata`, but no `sta`:
the arrival record is absent and the parse succeeds. -/
theorem c3_witness :
    Lib.parseArrivalTime fixLocNoSta = .ok none ∧
    fixSlNoSta.arrival_time = none := by
  refine ⟨(c3_missing_sta_omits_arrival fixLocNoSta).1 (by decide),
          (c3_missing_sta_omits_arrival fixLocNoSta).2.2 fixSlNoSta (by decide) (by decide)⟩

theorem parseForecastTypeText_not_mem (t : String)
    (h : t ∉ (["Forecast", "Actual", "NoLog", "NoReport", "Delayed"] : List String)) :
    Services.parseForecastTypeText t = .error (.InvalidForecast t) := by
  unfold Services.parseForecastTypeText
  split <;> simp_all

/-- C2: whenever an `arrivalType` (or `departureType`) tag is readable,
its text must be one of the five closed variants
(`Forecast` ↦ Estimated, `Actual`, `NoLog`, `NoReport`, `Delayed`); any
other text fails the `time:` block — and with it the whole location
parse — with `InvalidForecast` carrying the text found, while each of
the five texts parses without error. -/
theorem c2_forecast_closed_variants :
    (∀ (loc : XNode) (t : String),
      Services.textS loc "arrivalType" = .ok t →
      t ∉ (["Forecast", "Actual", "NoLog", "NoReport", "Delayed"] : List String) →
      Services.parseServiceTime loc = .error (.InvalidForecast t) ∧
      ∀ r, Services.ServiceLocationParse loc ≠ .ok r) ∧
    (∀ (loc : XNode) (t : String) (aft : Option Services.ForecastType),
      Services.arrivalForecastType loc = .ok aft →
      Services.textS loc "departureType" = .ok t →
      t ∉ (["Forecast", "Actual", "NoLog", "NoReport", "Delayed"] : List String) →
      Services.parseServiceTime loc = .error (.InvalidForecast t) ∧
      ∀ r, Services.ServiceLocationParse loc ≠ .ok r) ∧
    (∀ t : String,
      t ∈ (["Forecast", "Actual", "NoLog", "NoReport", "Delayed"] : List String) →
      ∃ ft, Services.parseForecastTypeText t = .ok ft) := by
  refine ⟨?_, ?_, ?_⟩
  · intro loc t ht hmem
    have hf := parseForecastTypeText_not_mem t hmem
    have haft : Services.arrivalForecastType loc = .error (.InvalidForecast t) := by
      unfold Services.arrivalForecastType
      rw [ht]
      simp [hf]
    have hst : Services.parseServiceTime loc = .error (.InvalidForecast t) := by
      unfold Services.parseServiceTime
      rw [haft]
    refine ⟨hst, ?_⟩
    intro r hr
    have hinv := services_parse_ok_inv loc r hr
    rw [hst] at hinv
    exact Except.noConfusion hinv
  · intro loc t aft haft ht hmem
    have hf := parseForecastTypeText_not_mem t hmem
    have hdft : Services.departureForecastType loc = .error (.InvalidForecast t) := by
      unfold Services.departureForecastType
      rw [ht]
      simp [hf]
    have hst : Services.parseServiceTime loc = .error (.InvalidForecast t) := by
      unfold Services.parseServiceTime
      rw [haft, hdft]
    refine ⟨hst, ?_⟩
    intro r hr
    have hinv := services_parse_ok_inv loc r hr
    rw [hst] at hinv
    exact Except.noConfusion hinv
  · intro t ht
    fin_cases ht <;> exact ⟨_, rfl⟩

/-- C2 witness: a location whose `arrivalType` text is `"Garbage"`
fails with `InvalidForecast "Garbage"` and never yields a parsed
location, while the text `"NoLog"` parses to a forecast type. -/
theorem c2_witness :
    Services.parseServiceTime fixLocBadForecast = .error (.InvalidForecast "Garbage") ∧
    Services.ServiceLocationParse fixLocBadForecast ≠ .ok fixSlDummy ∧
    Services.parseForecastTypeText "NoLog" = .ok Services.ForecastType.NoLog := by
  obtain ⟨h1, h2⟩ :=
    c2_forecast_closed_variants.1 fixLocBadForecast "Garbage" rfl (by decide)
  exact ⟨h1, h2 fixSlDummy, rfl⟩

/-- C4: with a readable scheduled arrival, an `arrivalType` of
`"Forecast"` with `eta` present and `ata` absent resolves the arrival to
the `eta` value; `"Actual"` with `ata` absent leaves the resolved
arrival absent even though the scheduled arrival is present; and
`"Delayed"` chooses the `eta` field. -/
theorem c4_forecast_resolution :
    (∀ (loc : XNode) (e : String),
      Services.textS loc "arrivalType" = .ok "Forecast" →
      Services.timeS loc "eta" = .ok e →
      hasChild loc "ata" = false →
      hasChild loc "departureType" = false →
      Services.parseServiceTime loc = .ok
        { scheduled_arrival := okOpt (Services.timeS loc "sta"),
          scheduled_departure := okOpt (Services.timeS loc "std"),
          arrival := some e,
          departure := none,
          arrival_forecast_type := some .Estimated,
          departure_forecast_type := none,
          arrival_source := none, arrival_source_instance := none,
          departure_source := none, departure_source_instance := none }) ∧
    (∀ (loc : XNode) (s : String),
      Services.textS loc "arrivalType" = .ok "Actual" →
      Services.timeS loc "sta" = .ok s →
      hasChild loc "ata" = false →
      hasChild loc "departureType" = false →
      Services.parseServiceTime loc = .ok
        { scheduled_arrival := some s,
          scheduled_departure := okOpt (Services.timeS loc "std"),
          arrival := none,
          departure := none,
          arrival_forecast_type := some .Actual,
          departure_forecast_type := none,
          arrival_source := none, arrival_source_instance := none,
          departure_source := none, departure_source_instance := none }) ∧
    (∀ (loc : XNode) (e : String),
      Services.textS loc "arrivalType" = .ok "Delayed" →
      Services.timeS loc "eta" = .ok e →
      hasChild loc "departureType" = false →
      Services.parseServiceTime loc = .ok
        { scheduled_arrival := okOpt (Services.timeS loc "sta"),
          scheduled_departure := okOpt (Services.timeS loc "std"),
          arrival := some e,
          departure := none,
          arrival_forecast_type := some .Delayed,
          departure_forecast_type := none,
          arrival_source := none, arrival_source_instance := none,
          departure_source := none, departure_source_instance := none }) := by
  refine ⟨?_, ?_, ?_⟩
  · intro loc e h1 h2 h3 h4
    have haft : Services.arrivalForecastType loc = .ok (some .Estimated) := by
      unfold Services.arrivalForecastType
      rw [h1]
      rfl
    have hdft : Services.departureForecastType loc = .ok none := by
      unfold Services.departureForecastType
      rw [textS_of_not_hasChild loc "departureType" h4]
    unfold Services.parseServiceTime
    rw [haft, hdft]
    simp [Services.resolveArrival, h2, okOpt]
  · intro loc s h1 h2 h3 h4
    have haft : Services.arrivalForecastType loc = .ok (some .Actual) := by
      unfold Services.arrivalForecastType
      rw [h1]
      rfl
    have hdft : Services.departureForecastType loc = .ok none := by
      unfold Services.departureForecastType
      rw [textS_of_not_hasChild loc "departureType" h4]
    unfold Services.parseServiceTime
    rw [haft, hdft]
    simp [Services.resolveArrival, h2, timeS_of_not_hasChild loc "ata" h3, okOpt]
  · intro loc e h1 h2 h3
    have haft : Services.arrivalForecastType loc = .ok (some .Delayed) := by
      unfold Services.arrivalForecastType
      rw [h1]
      rfl
    have hdft : Services.departureForecastType loc = .ok none := by
      unfold Services.departureForecastType
      rw [textS_of_not_hasChild loc "departureType" h3]
    unfold Services.parseServiceTime
    rw [haft, hdft]
    simp [Services.resolveArrival, h2, okOpt]

/-- C4 witness: concrete locations for the three scenarios. -/
theorem c4_witness :
    Services.parseServiceTime fixLocForecastEta = .ok
      { scheduled_arrival := some "2024-01-01T09:58:00Z",
        scheduled_departure := none,
        arrival := some "2024-01-01T10:00:00Z",
        departure := none,
        arrival_forecast_type := some .Estimated,
        departure_forecast_type := none,
        arrival_source := none, arrival_source_instance := none,
        departure_source := none, departure_source_instance := none } ∧
    Services.parseServiceTime fixLocActualNoAta = .ok
      { scheduled_arrival := some "2024-01-01T09:58:00Z",
        scheduled_departure := none,
        arrival := none,
        departure := none,
        arrival_forecast_type := some .Actual,
        departure_forecast_type := none,
        arrival_source := none, arrival_source_instance := none,
        departure_source := none, departure_source_instance := none } ∧
    Services.parseServiceTime fixLocDelayedEta = .ok
      { scheduled_arrival := none,
        scheduled_departure := none,
        arrival := some "2024-01-01T10:00:00Z",
        departure := none,
        arrival_forecast_type := some .Delayed,
        departure_forecast_type := none,
        arrival_source := none, arrival_source_instance := none,
        departure_source := none, departure_source_instance := none } := by
  refine ⟨?_, ?_, ?_⟩
  · exact c4_forecast_resolution.1 fixLocForecastEta "2024-01-01T10:00:00Z"
      rfl rfl (by decide) (by decide)
  · exact c4_forecast_resolution.2.1 fixLocActualNoAta "2024-01-01T09:58:00Z"
      rfl rfl (by decide) (by decide)
  · exact c4_forecast_resolution.2.2 fixLocDelayedEta "2024-01-01T10:00:00Z"
      rfl rfl (by decide)

theorem parseLocations_append_err (ns1 : List XNode) (loc : XNode) (ns2 : List XNode)
    (l1 : List Lib.ServiceLocation) (e : Lib.ParsingError)
    (h1 : Lib.parseLocations ns1 = .ok l1)
    (h2 : Lib.parse_service_location loc = .err e) :
    Lib.parseLocations (ns1 ++ loc :: ns2) = .err e := by
  induction ns1 generalizing l1 with
  | nil =>
    simp only [List.nil_append]
    unfold Lib.parseLocations
    rw [h2]
  | cons n ns ih =>
    rw [List.cons_append]
    unfold Lib.parseLocations at h1 ⊢
    cases hn : Lib.parse_service_location n <;> rw [hn] at h1
    case err => exact absurd h1 (by simp)
    case aborted => exact absurd h1 (by simp)
    case ok a =>
      cases hns : Lib.parseLocations ns <;> rw [hns] at h1
      case err => exact absurd h1 (by simp)
      case aborted => exact absurd h1 (by simp)
      case ok rest =>
        simp only [ih rest hns]

/-- C7 (amended): on an activities text all of whose 2-byte chunks are
valid UTF-8 (so that the up-front `collect` of unwrapped chunks cannot
panic), a chunk outside the lookup table fails the decoding loop with
that (trimmed) chunk, the location parse fails with `InvalidActivity`
carrying it, and the locations loop stops at the failing location — the
trailing locations are never processed (the result is the same for
every suffix). -/
theorem c7_invalid_activity_aborts :
    (∀ (u c v : List Nat) (l : List Activity) (scalars : List Nat)
        (strsv : List (List Nat)),
      u.length % 2 = 0 → c.length = 2 →
      processChunks (chunks2 u) = .ok l →
      utf8Chunk c = some scalars →
      activityOfCode (strOfScalars (rustTrim scalars)) = none →
      unwrapChunks (chunks2 v) = some strsv →
      decodeActivities (u ++ c ++ v) = .err (strOfScalars (rustTrim scalars))) ∧
    (∀ (loc : XNode) (str cstr : String),
      Lib.fieldText loc "activities" = .ok str → str ≠ "" →
      decodeActivities (utf8Bytes str) = .err cstr →
      Lib.parseActivitiesField loc = .err (.InvalidActivity cstr)) ∧
    (∀ (loc : XNode) (nm : String) (assocs : Option (List Lib.Association))
        (e : Lib.ParsingError),
      loc.tag = "location" →
      Lib.fieldText loc "locationName" = .ok nm →
      Lib.parseAssociationsField loc = .ok assocs →
      hasChild loc "adhocAlerts" = false →
      Lib.parseActivitiesField loc = .err e →
      Lib.parse_service_location loc = .err e) ∧
    (∀ (ns1 : List XNode) (loc : XNode) (ns2 : List XNode)
        (l1 : List Lib.ServiceLocation) (e : Lib.ParsingError),
      Lib.parseLocations ns1 = .ok l1 →
      Lib.parse_service_location loc = .err e →
      Lib.parseLocations (ns1 ++ loc :: ns2) = .err e) := by
  refine ⟨?_, ?_, ?_, parseLocations_append_err⟩
  · intro u c v l scalars strsv hu hc hl hcu hcm hv
    obtain ⟨x, y, rfl⟩ := List.length_eq_two.mp hc
    have hsplit : chunks2 (u ++ [x, y] ++ v) = chunks2 u ++ ([x, y] :: chunks2 v) := by
      rw [List.append_assoc, chunks2_append_even u ([x, y] ++ v) hu]
      rfl
    obtain ⟨su, hsu, hmu⟩ := processChunks_ok_inv (chunks2 u) l hl
    have h1 : unwrapChunks ([x, y] :: chunks2 v) = some (scalars :: strsv) := by
      unfold unwrapChunks
      rw [hcu, hv]
    have hun : unwrapChunks (chunks2 u ++ [x, y] :: chunks2 v) =
        some (su ++ scalars :: strsv) := by
      rw [unwrapChunks_append, hsu, h1]
    have hmc : matchCodes (su ++ scalars :: strsv) =
        .error (strOfScalars (rustTrim scalars)) := by
      rw [matchCodes_append, hmu]
      unfold matchCodes
      rw [hcm]
    unfold decodeActivities processChunks
    rw [hsplit, hun]
    simp only [hmc, PResult.map]
  · intro loc str cstr hft hne hdec
    unfold Lib.parseActivitiesField
    rw [hft]
    simp [hne, hdec]
  · intro loc nm assocs e htag hnm hassoc hadhoc hact
    unfold Lib.parse_service_location
    simp [htag, hnm, hassoc, hadhoc, hact]

/-- C7 witness: the activities text `"ZZTB"` (all chunks valid UTF-8)
on a concrete location: the decoder fails with `InvalidActivity "ZZ"`,
the location parse fails with it, and a locations list starting with
that location fails without touching the following (well-formed)
location. -/
theorem c7_witness :
    decodeActivities ([] ++ [90, 90] ++ utf8Bytes "TB") = .err "ZZ" ∧
    Lib.parseActivitiesField fixLocZZ = .err (.InvalidActivity "ZZ") ∧
    Lib.parse_service_location fixLocZZ = .err (.InvalidActivity "ZZ") ∧
    Lib.parseLocations ([] ++ fixLocZZ :: [fixLocPlain]) = .err (.InvalidActivity "ZZ") := by
  obtain ⟨hA, hA', hB, hC⟩ := c7_invalid_activity_aborts
  refine ⟨?_, ?_, ?_, ?_⟩
  · exact hA [] [90, 90] (utf8Bytes "TB") [] [90, 90] [[84, 66]]
      (by decide) (by decide) rfl (by decide) (by decide) (by decide)
  · exact hA' fixLocZZ "ZZTB" "ZZ" rfl (by decide) (by decide)
  · exact hB fixLocZZ "X" none (.InvalidActivity "ZZ") rfl rfl rfl (by decide) (by decide)
  · exact hC [] fixLocZZ [fixLocPlain] [] (.InvalidActivity "ZZ") rfl (by decide)

/-- C7 counterexample: the activities text `"ZZaé"` contains the
unmatched 2-character chunk `ZZ`, but the program panics instead of
failing with `InvalidActivity "ZZ"`: the `collect` of
`from_utf8(x).unwrap()` over all chunks runs before any chunk is
matched, and the chunking splits the two-byte `é` into invalid UTF-8
chunks. -/
theorem c7_counterexample :
    decodeActivities (utf8Bytes "ZZaé") = .aborted ∧
    Lib.parse_service_location fixLocZZSplit = .aborted ∧
    (PResult.aborted : PResult Lib.ParsingError Lib.ServiceLocation) ≠
      .err (.InvalidActivity "ZZ") := by
  refine ⟨by decide, by decide, by decide⟩

theorem unwrapChunks_isSome : ∀ (cs : List (List Nat)),
    (∀ c ∈ cs, (utf8Chunk c).isSome = true) → (unwrapChunks cs).isSome = true
  | [], _ => by simp [unwrapChunks]
  | c :: cs, h => by
    have hc : (utf8Chunk c).isSome = true := h c (by simp)
    have ih := unwrapChunks_isSome cs (fun d hd => h d (by simp [hd]))
    unfold unwrapChunks
    cases huc : utf8Chunk c with
    | none => rw [huc] at hc; simp at hc
    | some scalars =>
      cases hun : unwrapChunks cs with
      | none => rw [hun] at ih; simp at ih
      | some rest => simp

theorem processChunks_not_aborted (cs : List (List Nat))
    (h : ∀ c ∈ cs, (utf8Chunk c).isSome = true) : processChunks cs ≠ .aborted := by
  have hun := unwrapChunks_isSome cs h
  unfold processChunks
  cases hu : unwrapChunks cs with
  | none => rw [hu] at hun; simp at hun
  | some su => cases hm : matchCodes su <;> simp [hm]

theorem decodeActivities_not_aborted (s : String) (h : chunksOk s = true) :
    decodeActivities (utf8Bytes s) ≠ .aborted := by
  unfold chunksOk at h
  have hnp := processChunks_not_aborted (chunks2 (utf8Bytes s))
    (fun c hc => by simpa using List.all_eq_true.mp h c hc)
  unfold decodeActivities
  cases hpc : processChunks (chunks2 (utf8Bytes s))
  · simp [PResult.map]
  · simp [PResult.map]
  · exact absurd hpc hnp

theorem parseActivitiesField_not_aborted (loc : XNode)
    (h : ∀ s, Lib.fieldText loc "activities" = .ok s → chunksOk s = true) :
    Lib.parseActivitiesField loc ≠ .aborted := by
  unfold Lib.parseActivitiesField
  cases hft : Lib.fieldText loc "activities" with
  | error e => simp
  | ok s =>
    by_cases hs : s = ""
    · simp [hs]
    · have hd := decodeActivities_not_aborted s (h s hft)
      cases hdec : decodeActivities (utf8Bytes s)
      · simp [hs, hdec]
      · simp [hs, hdec]
      · exact absurd hdec hd

theorem parse_service_location_not_aborted (loc : XNode)
    (h1 : hasChild loc "adhocAlerts" = false)
    (h2 : ∀ s, Lib.fieldText loc "activities" = .ok s → chunksOk s = true) :
    Lib.parse_service_location loc ≠ .aborted := by
  have hact := parseActivitiesField_not_aborted loc h2
  unfold Lib.parse_service_location
  repeat' split
  all_goals simp_all

theorem parseLocations_not_aborted : ∀ (ns : List XNode),
    (∀ loc ∈ ns, hasChild loc "adhocAlerts" = false ∧
      ∀ s, Lib.fieldText loc "activities" = .ok s → chunksOk s = true) →
    Lib.parseLocations ns ≠ .aborted
  | [], _ => by simp [Lib.parseLocations]
  | n :: ns, h => by
    have hn := h n (by simp)
    have hloc := parse_service_location_not_aborted n hn.1 hn.2
    have ih := parseLocations_not_aborted ns (fun d hd => h d (by simp [hd]))
    unfold Lib.parseLocations
    cases hpn : Lib.parse_service_location n with
    | aborted => exact absurd hpn hloc
    | err e => simp
    | ok a =>
      cases hpl : Lib.parseLocations ns with
      | aborted => exact absurd hpl ih
      | err e => simp
      | ok ls => simp

theorem parse_details_aborted_inv (d : XNode)
    (h : Lib.parse_service_details d = .aborted) :
    ∃ locs, d.children.find? (fun c => c.tag == "locations") = some locs ∧
      Lib.parseLocations locs.children = .aborted := by
  unfold Lib.parse_service_details at h
  repeat' split at h
  all_goals try exact ⟨_, by assumption, by assumption⟩
  all_goals simp at h

/-- C10 (amended): the whole-document parse never panics on a document
none of whose locations has an `adhocAlerts` child and all of whose
activities texts (when readable) chunk into valid UTF-8; a document
violating either condition panics, as the counterexample shows. -/
theorem c10_no_panic_outside_todo_and_utf8_split (d : XNode)
    (h : ∀ loc ∈ locationsChildren d,
      hasChild loc "adhocAlerts" = false ∧
      ∀ s, Lib.fieldText loc "activities" = .ok s → chunksOk s = true) :
    Lib.parse_service_details d ≠ .aborted := by
  intro hab
  obtain ⟨locs, hfind, habloc⟩ := parse_details_aborted_inv d hab
  have hx : locationsChildren d = locs.children := by
    unfold locationsChildren
    rw [hfind]
  rw [hx] at h
  exact parseLocations_not_aborted locs.children h habloc

/-- C10 witness: a concrete fully valid document (no `adhocAlerts`,
ASCII activities) cannot make the parse panic. -/
theorem c10_witness :
    Lib.parse_service_details fixDoc ≠ .aborted := by
  apply c10_no_panic_outside_todo_and_utf8_split fixDoc
  intro loc hmem
  have hmem2 : loc ∈ [fixLocPlain] := hmem
  have hl : loc = fixLocPlain := by simpa using hmem2
  subst hl
  refine ⟨by decide, ?_⟩
  intro s h
  have h2 : Except.ok (ε := Lib.ParsingError) "TB" = Except.ok s := h
  injection h2 with h2
  rw [← h2]
  decide

/-- C10 counterexample: a document whose location carries an
`adhocAlerts` child reaches `todo!()`, and one whose activities text
splits a multi-byte UTF-8 character across the 2-byte chunking reaches
`from_utf8(..).unwrap()`; both panic (`aborted`) instead of returning a
result or a structured error. -/
theorem c10_counterexample :
    Lib.parse_service_details fixDocAdhoc = .aborted ∧
    Lib.parse_service_details fixDocSplit = .aborted := by
  refine ⟨by decide, by decide⟩
